import Mathlib

/-!
Verification of the RAG comparison harness (`rag_comparison` package).

This file gives a shallow embedding, in Lean 4, of the parts of the source
that the specification's claims are about:

* `QueryResult` and its status classification (`clients/base.py`);
* `DustClient.query` together with its polling loop (`clients/dust_client.py`),
  modelled over an explicit environment describing the backend's responses;
* `GraphRAGClient.query` (`clients/graphrag_client.py`), modelled over an
  environment describing the local nano_graphrag library's behaviour, with an
  explicit trace of external actions performed;
* `SystemMetrics.from_latencies` and `ExperimentResult.determine_winner`
  (`results.py`);
* `ExperimentConfig.from_env` (`config.py`);
* `LLMPrecisionJudge._parse_response` and `LLMPrecisionJudge.score`
  (`metrics/llm_judge.py`), including a small model of Python's `json.loads`
  restricted to the JSON fragment the judge exchanges.

Python floats are embedded as rationals (`ℚ`), Python exceptions as explicit
outcome constructors, and Python dictionaries as association lists.
-/

/-- JSON values, as produced by Python's `json.loads`.  Numbers are modelled
as rationals; objects keep their members in source order (Python keeps the
last duplicate key, which `Json.dictGet` reproduces). -/
inductive Json where
  | null : Json
  | bool : Bool → Json
  | num : ℚ → Json
  | str : String → Json
  | arr : List Json → Json
  | obj : List (String × Json) → Json

/-- Lookup of a key in a parsed JSON object, as Python dict lookup: when a key
was given twice the later member wins, which the reversed lookup reproduces. -/
def Json.dictGet (kvs : List (String × Json)) (k : String) : Option Json :=
  kvs.reverse.lookup k

/-- The double-quote character. -/
def dquoteChar : Char := Char.ofNat 34

/-- The backslash character. -/
def bslashChar : Char := Char.ofNat 92

/-- The opening-brace character. -/
def lbraceChar : Char := Char.ofNat 123

/-- The closing-brace character. -/
def rbraceChar : Char := Char.ofNat 125

/-- Whether a character is JSON whitespace. -/
def isJsonWs (c : Char) : Bool :=
  c = ' ' || c = '\t' || c = '\n' || c = '\r'

/-- Drop leading JSON whitespace. -/
def skipWs : List Char → List Char
  | [] => []
  | c :: cs => if isJsonWs c then skipWs cs else c :: cs

/-- Parse the body of a JSON string (after the opening quote), returning the
decoded characters and the input remaining after the closing quote.  Escape
sequences cover the common single-character escapes; `\u` escapes are outside
the modelled fragment and fail the parse. -/
def parseStringBody : Nat → List Char → Option (List Char × List Char)
  | 0, _ => none
  | _, [] => none
  | fuel + 1, c :: cs =>
    if c = dquoteChar then some ([], cs)
    else if c = bslashChar then
      match cs with
      | [] => none
      | e :: cs2 =>
        let dec : Option Char :=
          if e = dquoteChar then some dquoteChar
          else if e = bslashChar then some bslashChar
          else if e = '/' then some '/'
          else if e = 'n' then some '\n'
          else if e = 't' then some '\t'
          else if e = 'r' then some '\r'
          else if e = 'b' then some (Char.ofNat 8)
          else if e = 'f' then some (Char.ofNat 12)
          else none
        match dec with
        | none => none
        | some d =>
          match parseStringBody fuel cs2 with
          | none => none
          | some (body, rest) => some (d :: body, rest)
    else
      match parseStringBody fuel cs with
      | none => none
      | some (body, rest) => some (c :: body, rest)

/-- Read a maximal run of decimal digits. -/
def readDigits : List Char → List Char × List Char
  | [] => ([], [])
  | c :: cs =>
    if c.isDigit then
      let r := readDigits cs
      (c :: r.1, r.2)
    else ([], c :: cs)

/-- Numeric value of a digit run. -/
def digitsToNat (ds : List Char) : Nat :=
  ds.foldl (fun acc c => acc * 10 + (c.toNat - 48)) 0

/-- Parse a JSON number (optional minus sign, integer part, optional fraction,
optional exponent), returning its exact rational value. -/
def parseNumber (s : List Char) : Option (ℚ × List Char) :=
  let (neg, s1) := match s with
    | c :: cs => if c = '-' then (true, cs) else (false, c :: cs)
    | [] => (false, [])
  let (intDs, s2) := readDigits s1
  if intDs = [] then none
  else
    let intPart : ℚ := (digitsToNat intDs : ℚ)
    let (fracPart, s3) : ℚ × List Char := match s2 with
      | c :: cs =>
        if c = '.' then
          let (fracDs, rest) := readDigits cs
          ((digitsToNat fracDs : ℚ) / ((10 : ℚ) ^ fracDs.length), rest)
        else (0, c :: cs)
      | [] => (0, [])
    let base : ℚ := intPart + fracPart
    let withExp : Option (ℚ × List Char) := match s3 with
      | c :: cs =>
        if c = 'e' || c = 'E' then
          let (eneg, cs1) := match cs with
            | d :: ds =>
              if d = '-' then (true, ds)
              else if d = '+' then (false, ds)
              else (false, d :: ds)
            | [] => (false, [])
          let (expDs, rest) := readDigits cs1
          if expDs = [] then none
          else
            let e := digitsToNat expDs
            some (if eneg then base / ((10 : ℚ) ^ e) else base * ((10 : ℚ) ^ e), rest)
        else some (base, c :: cs)
      | [] => some (base, [])
    match withExp with
    | none => none
    | some (q, rest) => some ((if neg then -q else q), rest)

/-- Check that the input starts with the given characters, returning the rest. -/
def expectChars : List Char → List Char → Option (List Char)
  | [], rest => some rest
  | _, [] => none
  | p :: ps, c :: cs => if p = c then expectChars ps cs else none

mutual

/-- Recursive-descent parser for a JSON value (fuel-bounded). -/
def parseValue : Nat → List Char → Option (Json × List Char)
  | 0, _ => none
  | fuel + 1, s =>
    match skipWs s with
    | [] => none
    | c :: cs =>
      if c = lbraceChar then
        match skipWs cs with
        | d :: ds =>
          if d = rbraceChar then some (Json.obj [], ds)
          else
            match parseMembers fuel (d :: ds) with
            | none => none
            | some (kvs, rest) => some (Json.obj kvs, rest)
        | [] => none
      else if c = '[' then
        match skipWs cs with
        | d :: ds =>
          if d = ']' then some (Json.arr [], ds)
          else
            match parseElements fuel (d :: ds) with
            | none => none
            | some (xs, rest) => some (Json.arr xs, rest)
        | [] => none
      else if c = dquoteChar then
        match parseStringBody fuel cs with
        | none => none
        | some (body, rest) => some (Json.str (String.mk body), rest)
      else if c = 't' then
        match expectChars ['r', 'u', 'e'] cs with
        | none => none
        | some rest => some (Json.bool true, rest)
      else if c = 'f' then
        match expectChars ['a', 'l', 's', 'e'] cs with
        | none => none
        | some rest => some (Json.bool false, rest)
      else if c = 'n' then
        match expectChars ['u', 'l', 'l'] cs with
        | none => none
        | some rest => some (Json.null, rest)
      else
        match parseNumber (c :: cs) with
        | none => none
        | some (q, rest) => some (Json.num q, rest)

/-- Parse the members of a JSON object (after the opening brace, at a
non-brace character), including the closing brace. -/
def parseMembers : Nat → List Char → Option (List (String × Json) × List Char)
  | 0, _ => none
  | fuel + 1, s =>
    match skipWs s with
    | c :: cs =>
      if c = dquoteChar then
        match parseStringBody fuel cs with
        | none => none
        | some (keyBody, afterKey) =>
          match skipWs afterKey with
          | d :: ds =>
            if d = ':' then
              match parseValue fuel ds with
              | none => none
              | some (v, afterVal) =>
                match skipWs afterVal with
                | e :: es =>
                  if e = ',' then
                    match parseMembers fuel es with
                    | none => none
                    | some (kvs, rest) => some ((String.mk keyBody, v) :: kvs, rest)
                  else if e = rbraceChar then
                    some ([(String.mk keyBody, v)], es)
                  else none
                | [] => none
            else none
          | [] => none
      else none
    | [] => none

/-- Parse the elements of a JSON array (after the opening bracket, at a
non-bracket character), including the closing bracket. -/
def parseElements : Nat → List Char → Option (List Json × List Char)
  | 0, _ => none
  | fuel + 1, s =>
    match parseValue fuel s with
    | none => none
    | some (v, afterVal) =>
      match skipWs afterVal with
      | e :: es =>
        if e = ',' then
          match parseElements fuel es with
          | none => none
          | some (xs, rest) => some (v :: xs, rest)
        else if e = ']' then some ([v], es)
        else none
      | [] => none

end

/-- Model of Python's `json.loads` on decoded characters: parse one JSON
document, requiring the whole input to be consumed. -/
def jsonLoadsChars (cs : List Char) : Option Json :=
  match parseValue (2 * cs.length + 8) cs with
  | none => none
  | some (j, rest) => if skipWs rest = [] then some j else none

/-- Model of Python's `json.loads`. -/
def jsonLoads (s : String) : Option Json :=
  jsonLoadsChars s.data

/-- Whether a character is Python `str.strip` whitespace. -/
def isPyStripWs (c : Char) : Bool :=
  c = ' ' || c = '\t' || c = '\n' || c = '\r' || c = (Char.ofNat 11) || c = (Char.ofNat 12)

/-- Characters of a string after Python `str.strip()`. -/
def pyStripChars (cs : List Char) : List Char :=
  ((cs.dropWhile isPyStripWs).reverse.dropWhile isPyStripWs).reverse

/-- Model of Python's `str.strip()`: remove leading and trailing whitespace. -/
def pyStrip (s : String) : String :=
  String.mk (pyStripChars s.data)

/-- Whether the first character list is an initial segment of the second
(model of Python's `str.startswith` on the decoded characters). -/
def listStartsWith : List Char → List Char → Bool
  | [], _ => true
  | _ :: _, [] => false
  | p :: ps, c :: cs => p = c && listStartsWith ps cs

/-- Model of Python's `str.startswith`. -/
def pyStartsWith (s pat : String) : Bool :=
  listStartsWith pat.data s.data

/-- Python truthiness of a JSON value (`None`, `False`, `0`, empty string,
empty list and empty dict are falsy). -/
def pyTruthy : Json → Bool
  | Json.null => false
  | Json.bool b => b
  | Json.num q => !(q = 0)
  | Json.str s => !(s = "")
  | Json.arr xs => !xs.isEmpty
  | Json.obj kvs => !kvs.isEmpty

/-- Decimal-or-fraction rendering of a rational; stands in for Python's
rendering of a parsed JSON number (the exact text is not read by any claim). -/
def ratRepr (q : ℚ) : String :=
  if q.den = 1 then toString q.num else toString q.num ++ "/" ++ toString q.den

mutual

/-- Model of Python's `repr` on JSON-decoded values. -/
def Json.pyReprVal : Json → String
  | Json.null => "None"
  | Json.bool true => "True"
  | Json.bool false => "False"
  | Json.num q => ratRepr q
  | Json.str s => "\x27" ++ s ++ "\x27"
  | Json.arr xs => "[" ++ Json.pyReprElems xs ++ "]"
  | Json.obj kvs => String.mk [lbraceChar] ++ Json.pyReprPairs kvs ++ String.mk [rbraceChar]

/-- Comma-joined `repr` of list elements. -/
def Json.pyReprElems : List Json → String
  | [] => ""
  | [x] => Json.pyReprVal x
  | x :: y :: xs => Json.pyReprVal x ++ ", " ++ Json.pyReprElems (y :: xs)

/-- Comma-joined `repr` of dict members. -/
def Json.pyReprPairs : List (String × Json) → String
  | [] => ""
  | [(k, v)] => "\x27" ++ k ++ "\x27: " ++ Json.pyReprVal v
  | (k, v) :: p :: kvs =>
    "\x27" ++ k ++ "\x27: " ++ Json.pyReprVal v ++ ", " ++ Json.pyReprPairs (p :: kvs)

end

/-- Model of Python's `str()` on JSON-decoded values: the identity on strings,
`repr`-like elsewhere. -/
def Json.pyStr : Json → String
  | Json.str s => s
  | j => Json.pyReprVal j

/-- Python exceptions raised by built-in conversions, as relevant to
`LLMPrecisionJudge._parse_response`: `float()` raises `ValueError` on an
unconvertible string and `TypeError` on a non-string, non-numeric value. -/
inductive PyErr where
  | valueError : String → PyErr
  | typeError : String → PyErr

/-- Model of Python's `float(str)` on the fragment exchanged here: strip
whitespace, optional sign, then a JSON-style number consuming the whole rest.
(The full Python grammar also accepts forms such as `.5` or `inf`; none occur
in this code's data.) -/
def pyParseFloat (s : String) : Option ℚ :=
  let t := pyStrip s
  let (neg, cs) := match t.data with
    | c :: rest =>
      if c = '-' then (true, rest)
      else if c = '+' then (false, rest)
      else (false, c :: rest)
    | [] => (true, [])
  match parseNumber cs with
  | none => none
  | some (q, rest) => if rest = [] then some (if neg then -q else q) else none

/-- Model of Python's `float()` applied to a JSON-decoded value. -/
def pyFloatOfJson : Json → Except PyErr ℚ
  | Json.num q => Except.ok q
  | Json.bool b => Except.ok (if b then 1 else 0)
  | Json.str s =>
    match pyParseFloat s with
    | some q => Except.ok q
    | none =>
      Except.error (PyErr.valueError ("could not convert string to float: \x27" ++ s ++ "\x27"))
  | Json.null => Except.error (PyErr.typeError ("float() argument must not be NoneType"))
  | Json.arr _ => Except.error (PyErr.typeError ("float() argument must not be list"))
  | Json.obj _ => Except.error (PyErr.typeError ("float() argument must not be dict"))

/-- One query outcome, the shared result shape of both adapters
(`rag_comparison/clients/base.py`, dataclass `QueryResult`). -/
structure QueryResult where
  answer : String
  latency_ms : ℚ
  status : String
  raw_response : Option Json

/-- `QueryResult.is_success`: the query completed successfully. -/
def QueryResult.is_success (r : QueryResult) : Bool :=
  r.status == ("success")

/-- `QueryResult.is_timeout`: the query timed out. -/
def QueryResult.is_timeout (r : QueryResult) : Bool :=
  r.status == ("timeout")

/-- `QueryResult.is_error`: the query resulted in an error
(`self.status.startswith("error:")`). -/
def QueryResult.is_error (r : QueryResult) : Bool :=
  pyStartsWith r.status ("error:")

/-- `QueryResult.timeout`: construct a timeout result. -/
def QueryResult.timeout (latency_ms : ℚ) : QueryResult :=
  { answer := "", latency_ms := latency_ms, status := "timeout", raw_response := none }

/-- `QueryResult.error`: construct an error result (status `error: {message}`). -/
def QueryResult.error (message : String) (latency_ms : ℚ) : QueryResult :=
  { answer := ""
    latency_ms := latency_ms
    status := "error: " ++ message
    raw_response := none }

/-- Number of the three status classifications that hold of a result. -/
def QueryResult.statusClassCount (r : QueryResult) : Nat :=
  (if r.is_success then 1 else 0) + (if r.is_timeout then 1 else 0) +
    (if r.is_error then 1 else 0)

/-- One message entry inside a polled Dust conversation
(`data["conversation"]["content"]` items are lists of such messages; entries
that are not lists are skipped by the source and are not modelled). -/
structure PollMsg where
  type : String
  status : String
  content : String
  errorMessage : Option String

/-- One HTTP response observed by an iteration of
`DustClient._poll_for_response`. -/
structure PollResponse where
  httpStatus : Nat
  content : List (List PollMsg)

/-- Outcome of `DustClient._poll_for_response`: the aggregated answer on a
succeeded agent message, a raised `DustAPIError` payload on a failed one, or a
raised `asyncio.TimeoutError` when the budget runs out. -/
inductive PollResult where
  | answer : String → PollResult
  | failed : String → PollResult
  | timedOut : PollResult

/-- Scan the conversation content for the first agent message in a terminal
state, as the nested loops of `_poll_for_response` do: `succeeded` returns the
message content, `failed` raises with the message's error payload (default
`Agent failed`); other statuses are skipped. -/
def findTerminalAgentMessage (content : List (List PollMsg)) : Option PollResult :=
  match content with
  | [] => none
  | item :: rest =>
    match findTerminalInItem item with
    | some r => some r
    | none => findTerminalAgentMessage rest
where
  /-- Scan one content item (a list of messages). -/
  findTerminalInItem : List PollMsg → Option PollResult
    | [] => none
    | msg :: msgs =>
      if msg.type = "agent_message" then
        if msg.status = "succeeded" then some (PollResult.answer msg.content)
        else if msg.status = "failed" then
          some (PollResult.failed (msg.errorMessage.getD ("Agent failed")))
        else findTerminalInItem msgs
      else findTerminalInItem msgs

/-- `DustClient._poll_for_response`, over the sequence of poll iterations the
environment provides (one entry per loop iteration, at most
`int(timeout / poll_interval)` many — the list plays that bound).  Each entry
carries whether the elapsed-time check `elapsed >= self.timeout` fired and the
HTTP response of that iteration's GET; non-200 responses are skipped and the
loop falls through to a raised `asyncio.TimeoutError` when the iterations are
exhausted. -/
def DustClient.poll_for_response : List (Bool × PollResponse) → PollResult
  | [] => PollResult.timedOut
  | (elapsedExceeded, resp) :: rest =>
    if elapsedExceeded then PollResult.timedOut
    else if resp.httpStatus ≠ 200 then DustClient.poll_for_response rest
    else
      match findTerminalAgentMessage resp.content with
      | some r => r
      | none => DustClient.poll_for_response rest

/-- Outcome of the initial conversation-creating POST in `DustClient.query`:
an HTTP response (status, error body text, parsed JSON data), a transport
`asyncio.TimeoutError`, or another transport exception. -/
inductive DustCreateOutcome where
  | response : Nat → String → Json → DustCreateOutcome
  | transportTimeout : DustCreateOutcome
  | transportError : String → DustCreateOutcome

/-- Outcome of `DustClient.query`: either a returned `QueryResult`, or a
propagated `DustAPIError` carrying its status code and message (the
`except DustAPIError: raise` clause re-raises it). -/
inductive DustQueryOutcome where
  | result : QueryResult → DustQueryOutcome
  | raise : Nat → String → DustQueryOutcome

/-- `DustClient.query`, over an environment giving the creation POST's outcome
and the subsequent poll iterations.  `latAtCreate` is the wall-clock latency
measured right after the POST, `latFinal` the latency measured after polling;
both are environment inputs since the embedding does not model real time.
Control flow follows the source: a non-200 creation response raises
`DustAPIError(status, body)` which the `except DustAPIError` clause re-raises;
a missing conversation id returns an error result; polling outcomes map to a
success result, a re-raised `DustAPIError(500, message)`, or a timeout result;
transport failures map to a timeout or error result. -/
def DustClient.query (create : DustCreateOutcome)
    (polls : List (Bool × PollResponse)) (latAtCreate latFinal : ℚ) :
    DustQueryOutcome :=
  match create with
  | DustCreateOutcome.transportTimeout =>
    DustQueryOutcome.result (QueryResult.timeout latAtCreate)
  | DustCreateOutcome.transportError msg =>
    DustQueryOutcome.result (QueryResult.error msg latAtCreate)
  | DustCreateOutcome.response httpStatus errorText data =>
    if httpStatus ≠ 200 then DustQueryOutcome.raise httpStatus errorText
    else
      let conversation := (Json.dictGet (jsonObjMembers data) ("conversation")).getD (Json.obj [])
      let conversationId := Json.dictGet (jsonObjMembers conversation) ("sId")
      if !(conversationId.map pyTruthy).getD false then
        DustQueryOutcome.result
          (QueryResult.error ("No conversation ID in response") latAtCreate)
      else
        match DustClient.poll_for_response polls with
        | PollResult.answer a =>
          DustQueryOutcome.result
            { answer := a, latency_ms := latFinal, status := "success"
              raw_response := some data }
        | PollResult.failed m => DustQueryOutcome.raise 500 m
        | PollResult.timedOut =>
          DustQueryOutcome.result (QueryResult.timeout latFinal)
where
  /-- Members of a JSON object, `[]` for any other value (as `dict.get` on the
  default `{}` would find nothing). -/
  jsonObjMembers : Json → List (String × Json)
    | Json.obj kvs => kvs
    | _ => []

/-- External actions the graph adapter can perform; `httpPost` is the action
the specification's protocol description speaks of, `libImport`,
`communeLookup` and `libQuery` are what the source actually does (import
nano_graphrag, resolve the commune's data directory, run one library query). -/
inductive GraphAction where
  | httpPost : String → List (String × String) → GraphAction
  | libImport : GraphAction
  | communeLookup : String → GraphAction
  | libQuery : String → String → String → GraphAction

/-- Whether an action is an HTTP POST. -/
def GraphAction.isHttpPost : GraphAction → Bool
  | GraphAction.httpPost _ _ => true
  | _ => false

/-- Whether an action is a nano_graphrag library query. -/
def GraphAction.isLibQuery : GraphAction → Bool
  | GraphAction.libQuery _ _ _ => true
  | _ => false

/-- Outcome of `rag.aquery` under `asyncio.wait_for`: a returned value, a
raised `asyncio.TimeoutError`, or another raised exception (which the final
`except Exception` clause of `GraphRAGClient.query` converts to an error
result). -/
inductive RagOutcome where
  | ok : Json → RagOutcome
  | timeout : RagOutcome
  | exn : String → RagOutcome

/-- Environment of one `GraphRAGClient.query` call: whether the
nano_graphrag import succeeds, which data directories exist, the listing
used in the commune-not-found message, and the library call's outcome. -/
structure GraphEnv where
  importOk : Bool
  importErrMsg : String
  pathExists : String → Bool
  communeList : List String
  ragOutcome : RagOutcome

/-- `GraphRAGClient._get_commune_path`: the commune's directory if it exists,
else the space-to-underscore variant, else nothing. -/
def GraphRAGClient.get_commune_path (env : GraphEnv) (commune_id : String) :
    Option String :=
  if env.pathExists commune_id then some commune_id
  else
    let alt := (commune_id.replace (" ") ("_"))
    if env.pathExists alt then some alt else none

/-- Python `repr` of a list of strings, used in the commune-not-found
message. -/
def pyListRepr (xs : List String) : String :=
  "[" ++ String.intercalate (", ") (xs.map (fun s => "\x27" ++ s ++ "\x27")) ++ "]"

/-- `GraphRAGClient.query`, over an environment describing the local
nano_graphrag backend, together with the trace of external actions performed.
Latencies are environment inputs.  The answer is extracted as the source does:
`result.get("answer", "")` when the library returns a dict, `str(result)`
otherwise.  Every failure is converted to a non-success `QueryResult`; the
function raises nothing, and the trace records that no HTTP request is ever
made. -/
def GraphRAGClient.query (env : GraphEnv) (question : String)
    (mode commune : Option String) (default_mode default_commune : String)
    (lat : ℚ) : QueryResult × List GraphAction :=
  let commune_id := pyOrDefault commune default_commune
  let query_mode := pyOrDefault mode default_mode
  if !env.importOk then
    (QueryResult.error ("nano_graphrag not available: " ++ env.importErrMsg) lat,
      [GraphAction.libImport])
  else
    match GraphRAGClient.get_commune_path env commune_id with
    | none =>
      let available := env.communeList.take 5
      (QueryResult.error
          ("Commune \x27" ++ commune_id ++ "\x27 not found. Available: " ++
            pyListRepr available) lat,
        [GraphAction.libImport, GraphAction.communeLookup commune_id])
    | some _ =>
      let trace := [GraphAction.libImport, GraphAction.communeLookup commune_id,
        GraphAction.libQuery question query_mode commune_id]
      match env.ragOutcome with
      | RagOutcome.timeout => (QueryResult.timeout lat, trace)
      | RagOutcome.exn msg => (QueryResult.error msg lat, trace)
      | RagOutcome.ok result =>
        let answer := match result with
          | Json.obj kvs => ((Json.dictGet kvs ("answer")).map Json.pyStr).getD ("")
          | other => Json.pyStr other
        ({ answer := answer, latency_ms := lat, status := "success"
           raw_response := some (Json.obj
             [("commune", Json.str commune_id), ("mode", Json.str query_mode)]) },
          trace)
where
  /-- Python's `x or default` on an optional argument: `None` and the empty
  string fall back to the default. -/
  pyOrDefault (x : Option String) (d : String) : String :=
    match x with
    | none => d
    | some s => if s = "" then d else s

/-- Per-metric aggregate statistics (`results.py`, the entries of
`SystemMetrics.metric_scores`).  The source also stores a sample standard
deviation `std = statistics.stdev(values)` (`0.0` for single samples); that
field is an irrational square root, is read by no claim and no other code in
the package, and is omitted from this rational embedding. -/
structure MetricStats where
  mean : ℚ
  min : ℚ
  max : ℚ

/-- Aggregated metrics for one RAG system (`results.py`, dataclass
`SystemMetrics`). -/
structure SystemMetrics where
  system_name : String
  success_rate : ℚ
  avg_latency_ms : ℚ
  p50_latency_ms : ℚ
  p95_latency_ms : ℚ
  min_latency_ms : ℚ
  max_latency_ms : ℚ
  metric_scores : List (String × MetricStats)

/-- Insert into a sorted list, keeping order. -/
def insertSorted (x : ℚ) : List ℚ → List ℚ
  | [] => [x]
  | y :: ys => if x ≤ y then x :: y :: ys else y :: insertSorted x ys

/-- Model of Python's `sorted` on a list of floats (insertion sort). -/
def pySorted (l : List ℚ) : List ℚ :=
  l.foldr insertSorted []

/-- Model of `statistics.mean`. -/
def listMean (l : List ℚ) : ℚ :=
  l.sum / l.length

/-- Model of Python's `min` on a nonempty list (`0` on the empty list, which
the source never reaches). -/
def listMin : List ℚ → ℚ
  | [] => 0
  | x :: xs => xs.foldl min x

/-- Model of Python's `max` on a nonempty list (`0` on the empty list, which
the source never reaches). -/
def listMax : List ℚ → ℚ
  | [] => 0
  | x :: xs => xs.foldl max x

/-- `SystemMetrics.from_latencies` (`results.py`): all-zero metrics for an
empty latency list; otherwise index-based percentiles over the sorted
latencies (`p50_idx = int(n * 0.50)`, `p95_idx = min(int(n * 0.95), n - 1)`),
the mean/min/max of the latencies, the guarded success rate, and per-metric
mean/min/max aggregates for each metric with a nonempty score list. -/
def SystemMetrics.from_latencies (system_name : String) (latencies : List ℚ)
    (success_count total_count : Nat)
    (metric_scores : List (String × List ℚ)) : SystemMetrics :=
  if latencies = [] then
    { system_name := system_name
      success_rate := 0
      avg_latency_ms := 0
      p50_latency_ms := 0
      p95_latency_ms := 0
      min_latency_ms := 0
      max_latency_ms := 0
      metric_scores := [] }
  else
    let sorted_latencies := pySorted latencies
    let n := sorted_latencies.length
    let p50_idx := Int.toNat ⌊(n : ℚ) * ((50 : ℚ) / 100)⌋
    let p95_idx := min (Int.toNat ⌊(n : ℚ) * ((95 : ℚ) / 100)⌋) (n - 1)
    let aggregated_metrics := metric_scores.filterMap (fun p =>
      if p.2 = [] then none
      else some (p.1,
        { mean := listMean p.2, min := listMin p.2, max := listMax p.2 :
          MetricStats }))
    { system_name := system_name
      success_rate := if total_count > 0 then (success_count : ℚ) / total_count else 0
      avg_latency_ms := listMean latencies
      p50_latency_ms := sorted_latencies.getD p50_idx 0
      p95_latency_ms := sorted_latencies.getD p95_idx 0
      min_latency_ms := listMin latencies
      max_latency_ms := listMax latencies
      metric_scores := aggregated_metrics }

/-- Complete experiment result (`results.py`, dataclass `ExperimentResult`).
The `created_at` timestamp (a `datetime` the code only carries and renders) is
modelled as its rendered text. -/
structure ExperimentResult where
  experiment_id : String
  experiment_name : String
  created_at : String
  dataset_name : String
  question_count : Nat
  dust_metrics : SystemMetrics
  graphrag_metrics : SystemMetrics
  comparison_summary : List (String × String)
  opik_project : String

/-- Round half to even, as Python's float formatting does at the rounding
digit. -/
def roundHalfEven (q : ℚ) : ℤ :=
  let f := ⌊q⌋
  let r := q - f
  if r < 1 / 2 then f
  else if 1 / 2 < r then f + 1
  else if f % 2 = 0 then f else f + 1

/-- Model of Python's percent formatting without decimals, as in the
`{margin:.0%}` format: the value times 100, rounded, with a percent sign. -/
def formatPercent0 (q : ℚ) : String :=
  toString (roundHalfEven (q * 100)) ++ "%"

/-- Sums of the mean scores of the mutually-present named metrics, with their
count, accumulated in the iteration order of the Dust system's metric names
as the loop in `determine_winner` does. -/
def sharedMetricSums (dust graphrag : List (String × MetricStats)) :
    ℚ × ℚ × Nat :=
  dust.foldl (fun acc p =>
    match graphrag.lookup p.1 with
    | some gs => (acc.1 + p.2.mean, acc.2.1 + gs.mean, acc.2.2 + 1)
    | none => acc) (0, 0, 0)

/-- The two weighted scores accumulated by `ExperimentResult.determine_winner`
(`results.py`): success rate (weight `0.4`), average latency, lower is better
(weight `0.3`), and the average of the mutually-present metric means (weight
`0.3`, skipped when no metric is shared); each factor gives its full weight to
the strict winner or half to each side on a tie. -/
def ExperimentResult.winner_scores (self : ExperimentResult) : ℚ × ℚ :=
  let dm := self.dust_metrics
  let gm := self.graphrag_metrics
  let s : ℚ × ℚ :=
    if dm.success_rate > gm.success_rate then ((4 : ℚ) / 10, 0)
    else if gm.success_rate > dm.success_rate then (0, (4 : ℚ) / 10)
    else ((2 : ℚ) / 10, (2 : ℚ) / 10)
  let l : ℚ × ℚ :=
    if dm.avg_latency_ms < gm.avg_latency_ms then ((3 : ℚ) / 10, 0)
    else if gm.avg_latency_ms < dm.avg_latency_ms then (0, (3 : ℚ) / 10)
    else ((15 : ℚ) / 100, (15 : ℚ) / 100)
  let t := sharedMetricSums dm.metric_scores gm.metric_scores
  let m : ℚ × ℚ :=
    if t.2.2 > 0 then
      let dust_metric_avg := t.1 / (t.2.2 : ℚ)
      let graphrag_metric_avg := t.2.1 / (t.2.2 : ℚ)
      if dust_metric_avg > graphrag_metric_avg then ((3 : ℚ) / 10, 0)
      else if graphrag_metric_avg > dust_metric_avg then (0, (3 : ℚ) / 10)
      else ((15 : ℚ) / 100, (15 : ℚ) / 100)
    else (0, 0)
  (s.1 + l.1 + m.1, s.2 + l.2 + m.2)

/-- `ExperimentResult.determine_winner` (`results.py`): compute both weighted
scores, set `comparison_summary` to the winner (`tie` when the absolute gap is
strictly below `0.1`, else the higher-scoring system) and the gap formatted as
a percentage, and leave every other field unchanged.  The Python method
mutates `self`; the embedding returns the updated record. -/
def ExperimentResult.determine_winner (self : ExperimentResult) :
    ExperimentResult :=
  let sc := self.winner_scores
  let margin := |sc.1 - sc.2|
  let summary :=
    if margin < (1 : ℚ) / 10 then
      [("winner", "tie"), ("margin", formatPercent0 margin)]
    else if sc.1 > sc.2 then
      [("winner", "dust"), ("margin", formatPercent0 margin)]
    else
      [("winner", "graphrag"), ("margin", formatPercent0 margin)]
  { self with comparison_summary := summary }

/-- Experiment configuration (`config.py`, dataclass `ExperimentConfig`). -/
structure ExperimentConfig where
  dust_api_key : String
  dust_workspace_id : String
  dust_agent_id : String
  graphrag_api_url : String
  graphrag_mode : String
  graphrag_book_id : Option String
  opik_api_key : String
  opik_project_name : String
  openai_api_key : Option String
  openai_model : String
  enable_llm_judge : Bool
  timeout_seconds : ℚ
  parallel_workers : ℤ
  metrics : List String

/-- An environment-variable table, as read through `os.getenv`. -/
def EnvTable : Type := String → Option String

/-- Python falsiness of an `os.getenv` result: unset, or set to the empty
string. -/
def envFalsy (env : EnvTable) (k : String) : Bool :=
  match env k with
  | none => true
  | some s => s = ""

/-- `os.getenv(key, default)`: the default only when the variable is unset. -/
def pyGetenvD (env : EnvTable) (k dflt : String) : String :=
  match env k with
  | none => dflt
  | some s => s

/-- Model of Python's `int(str)`: strip, optional sign, decimal digits. -/
def pyParseInt (s : String) : Option ℤ :=
  let t := pyStrip s
  let (neg, cs) := match t.data with
    | c :: rest =>
      if c = '-' then (true, rest)
      else if c = '+' then (false, rest)
      else (false, c :: rest)
    | [] => (true, [])
  match readDigits cs with
  | ([], _) => none
  | (ds, rest) =>
    if rest = [] then some (if neg then -(digitsToNat ds : ℤ) else (digitsToNat ds : ℤ))
    else none

/-- Outcome of `ExperimentConfig.from_env`: a configuration, or a raised
`ValueError` with its message. -/
inductive FromEnvOutcome where
  | config : ExperimentConfig → FromEnvOutcome
  | valueError : String → FromEnvOutcome

/-- The required environment variables, in the order the source checks them. -/
def requiredEnvVars : List String :=
  ["DUST_API_KEY", "DUST_WORKSPACE_ID", "OPIK_API_KEY"]

/-- `ExperimentConfig.from_env` (`config.py`): read the three required
variables, collect every missing (unset or empty) one, and raise a single
`ValueError` naming all of them before anything else runs; otherwise build the
configuration from the optional variables and their defaults.  `float()` or
`int()` conversion failures on the optional numeric variables raise their own
`ValueError`s, modelled with the corresponding messages. -/
def ExperimentConfig.from_env (env : EnvTable) : FromEnvOutcome :=
  let missing :=
    (if envFalsy env ("DUST_API_KEY") then ["DUST_API_KEY"] else []) ++
    (if envFalsy env ("DUST_WORKSPACE_ID") then ["DUST_WORKSPACE_ID"] else []) ++
    (if envFalsy env ("OPIK_API_KEY") then ["OPIK_API_KEY"] else [])
  if missing ≠ [] then
    FromEnvOutcome.valueError
      ("Missing required environment variables: " ++ String.intercalate (", ") missing)
  else
    let openai_api_key := env ("OPENAI_API_KEY")
    let enable_llm_judge := !envFalsy env ("OPENAI_API_KEY") &&
      (pyGetenvD env ("ENABLE_LLM_JUDGE") ("")).toLower == ("true")
    let timeoutText := pyGetenvD env ("TIMEOUT_SECONDS") ("30.0")
    let workersText := pyGetenvD env ("PARALLEL_WORKERS") ("8")
    match pyParseFloat timeoutText with
    | none =>
      FromEnvOutcome.valueError
        ("could not convert string to float: \x27" ++ timeoutText ++ "\x27")
    | some timeout_seconds =>
      match pyParseInt workersText with
      | none =>
        FromEnvOutcome.valueError
          ("invalid literal for int() with base 10: \x27" ++ workersText ++ "\x27")
      | some parallel_workers =>
        FromEnvOutcome.config
          { dust_api_key := (env ("DUST_API_KEY")).getD ""
            dust_workspace_id := (env ("DUST_WORKSPACE_ID")).getD ""
            dust_agent_id := pyGetenvD env ("DUST_AGENT_ID") ("beTfWHdTC6")
            graphrag_api_url := pyGetenvD env ("GRAPHRAG_API_URL")
              ("https://reconciliation-api-production.up.railway.app")
            graphrag_mode := pyGetenvD env ("GRAPHRAG_MODE") ("local")
            graphrag_book_id := env ("GRAPHRAG_BOOK_ID")
            opik_api_key := (env ("OPIK_API_KEY")).getD ""
            opik_project_name := pyGetenvD env ("OPIK_PROJECT_NAME") ("law_graphRAG")
            openai_api_key := openai_api_key
            openai_model := pyGetenvD env ("OPENAI_MODEL") ("gpt-4o-mini")
            enable_llm_judge := enable_llm_judge
            timeout_seconds := timeout_seconds
            parallel_workers := parallel_workers
            metrics := ["contains", "latency", "status"] }

/-- The required variables that are missing from an environment, as a filter —
the specification-side description that `from_env`'s error must list every one
of them at once. -/
def missingRequiredVars (env : EnvTable) : List String :=
  requiredEnvVars.filter (fun k => envFalsy env k)

/-- An OPIK `ScoreResult` as the judge builds it. -/
structure ScoreResult where
  name : String
  value : ℚ
  reason : String

/-- Outcome of `LLMPrecisionJudge._parse_response`: the parsed (score,
reasoning) pair, a raised `LLMJudgeError` carrying its message and the raw
response, or an exception the method's `except` clauses do not catch (an
`AttributeError` or `TypeError`), which propagates to `score`'s generic
handler. -/
inductive ParseOutcome where
  | ok : ℚ → String → ParseOutcome
  | judgeError : String → String → ParseOutcome
  | uncaught : String → ParseOutcome

/-- `LLMPrecisionJudge._parse_response` (`metrics/llm_judge.py`): strip the
content, peel markdown code fences, parse the JSON, read `score` (default 0,
converted with `float()`) and `reasoning` (default text, converted with
`str()`), and clamp an out-of-range score into `[0, 1]`.  A JSON parse failure
raises `LLMJudgeError` (the embedded message elides the Python exception's
position detail); a `float()` `ValueError` raises `LLMJudgeError` with the
invalid-format message; a non-dict document or a `float()` `TypeError`
escapes the method uncaught. -/
def LLMPrecisionJudge.parse_response (content : String) : ParseOutcome :=
  let c0 := pyStripChars content.data
  let c1 := if listStartsWith ("```json").data c0 then c0.drop 7 else c0
  let c2 := if listStartsWith ("```").data c1 then c1.drop 3 else c1
  let c3 :=
    if listStartsWith ("```").data.reverse c2.reverse then c2.take (c2.length - 3)
    else c2
  match jsonLoadsChars (pyStripChars c3) with
  | none => ParseOutcome.judgeError ("Failed to parse JSON: Expecting value") content
  | some (Json.obj kvs) =>
    let scoreJson := (Json.dictGet kvs ("score")).getD (Json.num 0)
    match pyFloatOfJson scoreJson with
    | Except.error (PyErr.valueError m) =>
      ParseOutcome.judgeError ("Invalid response format: " ++ m) content
    | Except.error (PyErr.typeError m) => ParseOutcome.uncaught m
    | Except.ok score =>
      let reasoning := match Json.dictGet kvs ("reasoning") with
        | some v => Json.pyStr v
        | none => "No reasoning provided"
      let score := if 0 ≤ score ∧ score ≤ 1 then score else max 0 (min 1 score)
      ParseOutcome.ok score reasoning
  | some _ => ParseOutcome.uncaught ("\x27object\x27 has no attribute \x27get\x27")

/-- `LLMPrecisionJudge._flag_ambiguous`: prepend the human-review marker when
the score lies in `[0.4, 0.6]`. -/
def LLMPrecisionJudge.flag_ambiguous (score : ℚ) (reasoning : String) : String :=
  if (4 : ℚ) / 10 ≤ score ∧ score ≤ (6 : ℚ) / 10 then
    "[REVIEW RECOMMENDED] " ++ reasoning
  else reasoning

/-- Outcome of the judge model call inside `LLMPrecisionJudge.score`: the
response content (`response.choices[0].message.content or ""`), or a raised
API exception. -/
inductive JudgeCallOutcome where
  | content : String → JudgeCallOutcome
  | exn : String → JudgeCallOutcome

/-- Outcome of `LLMPrecisionJudge.score`: a returned `ScoreResult`, or a
propagated `LLMJudgeError` (the `except LLMJudgeError: raise` clause). -/
inductive JudgeScoreOutcome where
  | result : ScoreResult → JudgeScoreOutcome
  | raiseJudgeError : String → String → JudgeScoreOutcome

/-- `LLMPrecisionJudge.score` (`metrics/llm_judge.py`), over the configured
credential and the judge call's outcome: a missing (unset or empty) API key
short-circuits to a zero score with an explanatory reason; an API exception is
degraded to a zero score by the generic handler; a parsed response is scored
and flagged; an `LLMJudgeError` from parsing is re-raised to the caller. -/
def LLMPrecisionJudge.score (api_key : Option String)
    (call : JudgeCallOutcome) : JudgeScoreOutcome :=
  if (api_key.map (fun s => s == "")).getD true then
    JudgeScoreOutcome.result
      { name := "llm_precision", value := 0
        reason := "LLM judge not configured (missing OPENAI_API_KEY)" }
  else
    match call with
    | JudgeCallOutcome.exn m =>
      JudgeScoreOutcome.result
        { name := "llm_precision", value := 0, reason := "Evaluation failed: " ++ m }
    | JudgeCallOutcome.content c =>
      match LLMPrecisionJudge.parse_response c with
      | ParseOutcome.judgeError m raw => JudgeScoreOutcome.raiseJudgeError m raw
      | ParseOutcome.uncaught m =>
        JudgeScoreOutcome.result
          { name := "llm_precision", value := 0, reason := "Evaluation failed: " ++ m }
      | ParseOutcome.ok score reasoning =>
        JudgeScoreOutcome.result
          { name := "llm_precision", value := score
            reason := LLMPrecisionJudge.flag_ambiguous score reasoning }

deriving instance DecidableEq for PollMsg

deriving instance DecidableEq for PollResponse

deriving instance DecidableEq for PollResult

deriving instance DecidableEq for GraphAction

deriving instance DecidableEq for MetricStats

deriving instance DecidableEq for SystemMetrics

deriving instance DecidableEq for ExperimentResult

deriving instance DecidableEq for ExperimentConfig

deriving instance DecidableEq for FromEnvOutcome

deriving instance DecidableEq for ScoreResult

deriving instance DecidableEq for ParseOutcome

deriving instance DecidableEq for JudgeCallOutcome

deriving instance DecidableEq for JudgeScoreOutcome

/-- The specification's worked winner-determination example: Dust success
rate 0.9 and average latency 500ms, GraphRAG success rate 0.8 and average
latency 300ms, no mutually-present named metrics. -/
def winnerScenario : ExperimentResult :=
  { experiment_id := "exp-1"
    experiment_name := "worked-example"
    created_at := "2026-01-01 00:00:00"
    dataset_name := "civic-law-eval"
    question_count := 10
    dust_metrics :=
      { system_name := "dust", success_rate := (9 : ℚ) / 10, avg_latency_ms := 500
        p50_latency_ms := 450, p95_latency_ms := 900, min_latency_ms := 100
        max_latency_ms := 1000, metric_scores := [] }
    graphrag_metrics :=
      { system_name := "graphrag", success_rate := (8 : ℚ) / 10, avg_latency_ms := 300
        p50_latency_ms := 250, p95_latency_ms := 700, min_latency_ms := 80
        max_latency_ms := 800, metric_scores := [] }
    comparison_summary := []
    opik_project := "law_graphRAG" }

/-- A graph-adapter environment in which the import succeeds, every commune
directory exists, and the library query raises an exception. -/
def graphExnEnv : GraphEnv :=
  { importOk := true
    importErrMsg := ""
    pathExists := fun _ => true
    communeList := ["Rochefort"]
    ragOutcome := RagOutcome.exn ("boom") }

theorem insertSorted_length (x : ℚ) (l : List ℚ) :
    (insertSorted x l).length = l.length + 1 := by
  induction l with
  | nil => rfl
  | cons y ys ih => by_cases h : x ≤ y <;> simp [insertSorted, h, ih]

theorem pySorted_length (l : List ℚ) : (pySorted l).length = l.length := by
  induction l with
  | nil => rfl
  | cons x xs ih =>
    simp only [pySorted, List.foldr] at *
    rw [insertSorted_length, ih]
    simp

theorem winnerScenario_scores :
    winnerScenario.winner_scores = ((4 : ℚ) / 10, (3 : ℚ) / 10) := by
  unfold winnerScenario ExperimentResult.winner_scores sharedMetricSums
  norm_num

theorem winnerScenario_margin : |(4 : ℚ) / 10 - 3 / 10| = 1 / 10 := by
  rw [show (4 : ℚ) / 10 - 3 / 10 = 1 / 10 by norm_num,
    abs_of_nonneg (by norm_num : (0 : ℚ) ≤ 1 / 10)]

theorem formatPercent0_tenth : formatPercent0 ((1 : ℚ) / 10) = "10%" := by
  unfold formatPercent0 roundHalfEven
  norm_num
  decide

theorem winnerScenario_summary :
    (winnerScenario.determine_winner).comparison_summary =
      [("winner", "dust"), ("margin", "10%")] := by
  simp only [ExperimentResult.determine_winner, winnerScenario_scores]
  rw [winnerScenario_margin]
  rw [if_neg (by norm_num : ¬ ((1 : ℚ) / 10 < 1 / 10))]
  rw [if_pos (by norm_num : (4 : ℚ) / 10 > 3 / 10)]
  rw [formatPercent0_tenth]

theorem pySorted_example :
    pySorted [100, 200, 300, 400, 500] = [(100 : ℚ), 200, 300, 400, 500] := by
  norm_num [pySorted, insertSorted]

theorem from_latencies_example :
    (SystemMetrics.from_latencies ("s") [100, 200, 300, 400, 500] 5 5
        []).p50_latency_ms = 300 ∧
    (SystemMetrics.from_latencies ("s") [100, 200, 300, 400, 500] 5 5
        []).p95_latency_ms = 500 := by
  unfold SystemMetrics.from_latencies
  rw [if_neg (by decide : ¬ (([100, 200, 300, 400, 500] : List ℚ) = []))]
  dsimp only
  rw [pySorted_example]
  constructor <;> (norm_num [List.getD, List.get?]; rfl)

/-- C1: on the specification's worked example, the code assigns Dust a total
score of 0.4 and GraphRAG 0.3 with an absolute gap of 0.1, but the tie test is
the strict comparison `margin < 0.1`, which 0.1 fails — so the verdict is
`dust` (reported margin `10%`), not `tie` as the claim states. -/
theorem c1_counterexample :
    ¬ ((winnerScenario.determine_winner).comparison_summary.lookup ("winner") =
      some ("tie")) := by
  rw [winnerScenario_summary]
  decide

/-- C1 (amended): on the worked example `determine_winner` computes the totals
0.4 (dust) and 0.3 (graphrag), a margin of exactly 0.1 which is not strictly
below the 0.1 tie threshold, and therefore records winner `dust` with the
margin rendered as `10%`. -/
theorem c1_winner_dust_margin_ten_percent :
    winnerScenario.winner_scores = ((4 : ℚ) / 10, (3 : ℚ) / 10) ∧
    |winnerScenario.winner_scores.1 - winnerScenario.winner_scores.2| = (1 : ℚ) / 10 ∧
    ¬ (|winnerScenario.winner_scores.1 - winnerScenario.winner_scores.2| < (1 : ℚ) / 10) ∧
    (winnerScenario.determine_winner).comparison_summary =
      [("winner", "dust"), ("margin", "10%")] := by
  refine ⟨winnerScenario_scores, ?_, ?_, winnerScenario_summary⟩
  · rw [winnerScenario_scores]
    exact winnerScenario_margin
  · rw [winnerScenario_scores]
    dsimp only
    rw [winnerScenario_margin]
    norm_num

/-- C5: `SystemMetrics.from_latencies` on an empty latency list returns with
every latency field equal to zero, for every system name and count, and with
`success_rate = 0` when the total count is zero (the code sets it to zero on
this branch regardless of the counts). -/
theorem c5_from_latencies_empty (system_name : String)
    (success_count total_count : Nat) (metric_scores : List (String × List ℚ)) :
    (SystemMetrics.from_latencies system_name [] success_count total_count
        metric_scores).avg_latency_ms = 0 ∧
    (SystemMetrics.from_latencies system_name [] success_count total_count
        metric_scores).p50_latency_ms = 0 ∧
    (SystemMetrics.from_latencies system_name [] success_count total_count
        metric_scores).p95_latency_ms = 0 ∧
    (SystemMetrics.from_latencies system_name [] success_count total_count
        metric_scores).min_latency_ms = 0 ∧
    (SystemMetrics.from_latencies system_name [] success_count total_count
        metric_scores).max_latency_ms = 0 ∧
    (total_count = 0 →
      (SystemMetrics.from_latencies system_name [] success_count total_count
          metric_scores).success_rate = 0) := by
  simp [SystemMetrics.from_latencies]

/-- C5 witness: the empty-list call at concrete arguments, with the
`total_count = 0` hypothesis discharged. -/
theorem c5_witness :
    (SystemMetrics.from_latencies ("dust") [] 0 0 []).success_rate = 0 :=
  (c5_from_latencies_empty ("dust") 0 0 []).2.2.2.2.2 rfl

/-- C6: for every nonempty latency list, `from_latencies` takes `p50` from the
sorted list at index `int(n * 0.50)` and `p95` at index
`min(int(n * 0.95), n - 1)`; in particular for `[100, 200, 300, 400, 500]` it
returns `p50 = 300` and `p95 = 500`. -/
theorem c6_percentile_computation :
    (∀ (latencies : List ℚ) (system_name : String)
        (success_count total_count : Nat)
        (metric_scores : List (String × List ℚ)), latencies ≠ [] →
      (SystemMetrics.from_latencies system_name latencies success_count
          total_count metric_scores).p50_latency_ms =
        (pySorted latencies).getD
          (Int.toNat ⌊(latencies.length : ℚ) * ((50 : ℚ) / 100)⌋) 0 ∧
      (SystemMetrics.from_latencies system_name latencies success_count
          total_count metric_scores).p95_latency_ms =
        (pySorted latencies).getD
          (min (Int.toNat ⌊(latencies.length : ℚ) * ((95 : ℚ) / 100)⌋)
            (latencies.length - 1)) 0) ∧
    (SystemMetrics.from_latencies ("s") [100, 200, 300, 400, 500] 5 5
        []).p50_latency_ms = 300 ∧
    (SystemMetrics.from_latencies ("s") [100, 200, 300, 400, 500] 5 5
        []).p95_latency_ms = 500 := by
  refine ⟨?_, from_latencies_example.1, from_latencies_example.2⟩
  intro latencies system_name success_count total_count metric_scores h
  unfold SystemMetrics.from_latencies
  rw [if_neg h]
  exact ⟨by simp [pySorted_length], by simp [pySorted_length]⟩

/-- C6 witness: the percentile-index equations applied at the concrete
five-sample list, with the nonemptiness hypothesis discharged. -/
theorem c6_witness :
    (SystemMetrics.from_latencies ("s") [100, 200, 300, 400, 500] 5 5
        []).p50_latency_ms =
      (pySorted [100, 200, 300, 400, 500]).getD
        (Int.toNat ⌊((5 : ℚ)) * ((50 : ℚ) / 100)⌋) 0 := by
  have h :=
    (c6_percentile_computation.1 [100, 200, 300, 400, 500] ("s") 5 5 []
      (by decide)).1
  simpa using h

/-- C10: `determine_winner` changes only `comparison_summary`, setting it to a
mapping with exactly the keys `winner` (bound to `dust`, `graphrag` or `tie`)
and `margin`, and leaves every other field of the result unchanged. -/
theorem c10_determine_winner_frame (r : ExperimentResult) :
    (r.determine_winner).experiment_id = r.experiment_id ∧
    (r.determine_winner).experiment_name = r.experiment_name ∧
    (r.determine_winner).created_at = r.created_at ∧
    (r.determine_winner).dataset_name = r.dataset_name ∧
    (r.determine_winner).question_count = r.question_count ∧
    (r.determine_winner).dust_metrics = r.dust_metrics ∧
    (r.determine_winner).graphrag_metrics = r.graphrag_metrics ∧
    (r.determine_winner).opik_project = r.opik_project ∧
    (r.determine_winner).comparison_summary.map Prod.fst =
      ["winner", "margin"] ∧
    ((r.determine_winner).comparison_summary.lookup ("winner") = some ("tie") ∨
      (r.determine_winner).comparison_summary.lookup ("winner") = some ("dust") ∨
      (r.determine_winner).comparison_summary.lookup ("winner") =
        some ("graphrag")) := by
  refine ⟨rfl, rfl, rfl, rfl, rfl, rfl, rfl, rfl, ?_, ?_⟩
  · simp only [ExperimentResult.determine_winner]
    split
    · rfl
    · split <;> rfl
  · simp only [ExperimentResult.determine_winner]
    split
    · exact Or.inl rfl
    · split
      · exact Or.inr (Or.inl rfl)
      · exact Or.inr (Or.inr rfl)

theorem listStartsWith_iff : ∀ (p l : List Char), listStartsWith p l = true ↔ p <+: l
  | [], l => by simp [listStartsWith]
  | a :: ps, [] => by simp [listStartsWith]
  | a :: ps, b :: ls => by
    simp [listStartsWith, listStartsWith_iff ps ls, List.cons_prefix_cons]

/-- C2: the three status classifications agree with their defining string
tests and are mutually exclusive for every status string, but a `QueryResult`
whose status has none of the three documented forms (such as `other`)
satisfies none of them — so "exactly one of the three is true" fails for an
arbitrary status string, as this zero-count witness shows. -/
theorem c2_counterexample :
    QueryResult.statusClassCount
      { answer := "", latency_ms := 0, status := "other", raw_response := none } =
      0 := by
  decide

/-- C2 (amended): `is_success`, `is_timeout` and `is_error` hold exactly when
the status equals `success`, equals `timeout`, or starts with `error:`; at
most one of the three ever holds, and exactly one holds whenever the status
has one of those three documented forms. -/
theorem c2_status_classification (r : QueryResult) :
    (r.is_success = true ↔ r.status = "success") ∧
    (r.is_timeout = true ↔ r.status = "timeout") ∧
    (r.is_error = true ↔ ("error:").data <+: r.status.data) ∧
    r.statusClassCount ≤ 1 ∧
    ((r.status = "success" ∨ r.status = "timeout" ∨
        ("error:").data <+: r.status.data) → r.statusClassCount = 1) := by
  obtain ⟨a, l, st, raw⟩ := r
  dsimp only [QueryResult.is_success, QueryResult.is_timeout,
    QueryResult.is_error, QueryResult.statusClassCount, pyStartsWith]
  refine ⟨by simp, by simp, listStartsWith_iff _ _, ?_, ?_⟩
  · by_cases h1 : st = "success"
    · subst h1; decide
    · by_cases h2 : st = "timeout"
      · subst h2; decide
      · simp [h1, h2]
        split <;> simp
  · rintro (h | h | h)
    · subst h; decide
    · subst h; decide
    · have h1 : st ≠ "success" := by
        rintro rfl
        exact absurd ((listStartsWith_iff _ _).2 h) (by decide)
      have h2 : st ≠ "timeout" := by
        rintro rfl
        exact absurd ((listStartsWith_iff _ _).2 h) (by decide)
      have h3 : listStartsWith ("error:").data st.data = true :=
        (listStartsWith_iff _ _).2 h
      simp [h1, h2, h3]

/-- C2 witness: a success-status result satisfies exactly one classification,
by the amended theorem applied at a concrete result. -/
theorem c2_witness :
    QueryResult.statusClassCount
      { answer := "ok", latency_ms := 0, status := "success",
        raw_response := none } = 1 :=
  (c2_status_classification
    { answer := "ok", latency_ms := 0, status := "success",
      raw_response := none }).2.2.2.2 (Or.inl rfl)

/-- C3: the claim fails for the Dust adapter: a non-200 response to the
conversation-creating POST is raised as a `DustAPIError` (the
`except DustAPIError: raise` clause re-raises it) instead of being returned
as an error `QueryResult`. -/
theorem c3_counterexample :
    DustClient.query
      (DustCreateOutcome.response 500 ("Internal Server Error") Json.null)
      [] 0 0 =
      DustQueryOutcome.raise 500 ("Internal Server Error") := rfl

/-- C3 (amended): the graph adapter converts every ordinary failure — library
timeout, library exception, failed import — into a non-success `QueryResult`
and never raises; the Dust adapter returns a timeout result for transport and
polling timeouts and an error result for a malformed creation response or a
transport exception, but re-raises `DustAPIError` for a non-200 creation
response and for a failed agent message. -/
theorem c3_failure_capture (env : GraphEnv) (question : String)
    (mode commune : Option String) (default_mode default_commune : String)
    (lat : ℚ) (polls : List (Bool × PollResponse)) (lat1 lat2 : ℚ)
    (status : Nat) (body msg : String) (data : Json) :
    (env.importOk = true →
      env.pathExists (GraphRAGClient.query.pyOrDefault commune default_commune) = true →
      env.ragOutcome = RagOutcome.timeout →
      (GraphRAGClient.query env question mode commune default_mode
          default_commune lat).1 = QueryResult.timeout lat) ∧
    (env.importOk = true →
      env.pathExists (GraphRAGClient.query.pyOrDefault commune default_commune) = true →
      env.ragOutcome = RagOutcome.exn msg →
      (GraphRAGClient.query env question mode commune default_mode
          default_commune lat).1 = QueryResult.error msg lat) ∧
    (env.importOk = false →
      (GraphRAGClient.query env question mode commune default_mode
          default_commune lat).1 =
        QueryResult.error ("nano_graphrag not available: " ++ env.importErrMsg) lat) ∧
    (DustClient.query DustCreateOutcome.transportTimeout polls lat1 lat2 =
      DustQueryOutcome.result (QueryResult.timeout lat1)) ∧
    (DustClient.query (DustCreateOutcome.transportError msg) polls lat1 lat2 =
      DustQueryOutcome.result (QueryResult.error msg lat1)) ∧
    (DustClient.query (DustCreateOutcome.response 200 body (Json.obj []))
        polls lat1 lat2 =
      DustQueryOutcome.result
        (QueryResult.error ("No conversation ID in response") lat1)) ∧
    (DustClient.poll_for_response polls = PollResult.timedOut →
      DustClient.query (DustCreateOutcome.response 200 body
          (Json.obj [("conversation", Json.obj [("sId", Json.str ("c1"))])]))
        polls lat1 lat2 =
        DustQueryOutcome.result (QueryResult.timeout lat2)) ∧
    (status ≠ 200 →
      DustClient.query (DustCreateOutcome.response status body data)
        polls lat1 lat2 =
        DustQueryOutcome.raise status body) ∧
    (DustClient.poll_for_response polls = PollResult.failed msg →
      DustClient.query (DustCreateOutcome.response 200 body
          (Json.obj [("conversation", Json.obj [("sId", Json.str ("c1"))])]))
        polls lat1 lat2 =
        DustQueryOutcome.raise 500 msg) := by
  have hpath : env.pathExists
        (GraphRAGClient.query.pyOrDefault commune default_commune) = true →
      GraphRAGClient.get_commune_path env
        (GraphRAGClient.query.pyOrDefault commune default_commune) =
        some (GraphRAGClient.query.pyOrDefault commune default_commune) := by
    intro h
    unfold GraphRAGClient.get_commune_path
    simp [h]
  refine ⟨?_, ?_, ?_, rfl, rfl, rfl, ?_, ?_, ?_⟩
  · intro h1 h2 h3
    unfold GraphRAGClient.query
    simp [h1, hpath h2, h3]
  · intro h1 h2 h3
    unfold GraphRAGClient.query
    simp [h1, hpath h2, h3]
  · intro h1
    unfold GraphRAGClient.query
    simp [h1]
  · intro hpoll
    unfold DustClient.query
    simp [hpoll, Json.dictGet, DustClient.query.jsonObjMembers, pyTruthy]
  · intro hstatus
    unfold DustClient.query
    simp [hstatus]
  · intro hpoll
    unfold DustClient.query
    simp [hpoll, Json.dictGet, DustClient.query.jsonObjMembers, pyTruthy]

/-- C3 witness: the amended theorem at concrete inputs — a graph-library
exception becomes an error result, a Dust transport timeout becomes a timeout
result, and a Dust 500 creation response is raised. -/
theorem c3_witness :
    (GraphRAGClient.query graphExnEnv ("q") none none ("global") ("Rochefort")
        7).1 = QueryResult.error ("boom") 7 ∧
    DustClient.query DustCreateOutcome.transportTimeout [] 1 2 =
      DustQueryOutcome.result (QueryResult.timeout 1) ∧
    DustClient.query (DustCreateOutcome.response 500 ("oops") Json.null) [] 1 2 =
      DustQueryOutcome.raise 500 ("oops") := by
  refine ⟨?_, ?_, ?_⟩
  · exact (c3_failure_capture graphExnEnv ("q") none none ("global")
      ("Rochefort") 7 [] 1 2 500 ("oops") ("boom") Json.null).2.1 rfl rfl rfl
  · exact (c3_failure_capture graphExnEnv ("q") none none ("global")
      ("Rochefort") 7 [] 1 2 500 ("oops") ("boom") Json.null).2.2.2.1
  · exact (c3_failure_capture graphExnEnv ("q") none none ("global")
      ("Rochefort") 7 [] 1 2 500 ("oops") ("boom") Json.null).2.2.2.2.2.2.2.1
      (by decide)

/-- C4: the claim fails: the graph adapter's query performs no HTTP POST at
all — its action trace contains zero POST actions, not the single POST of a
query payload the claim describes; the adapter queries the local
nano_graphrag library instead. -/
theorem c4_counterexample :
    ((GraphRAGClient.query graphExnEnv ("q") none none ("global") ("Rochefort")
        0).2.countP GraphAction.isHttpPost = 0) ∧
    ¬ ((GraphRAGClient.query graphExnEnv ("q") none none ("global") ("Rochefort")
        0).2.countP GraphAction.isHttpPost = 1) := by
  constructor <;> decide

/-- C4 (amended): the graph adapter's query performs no HTTP request (its
action trace never contains a POST) and at most one nano_graphrag library
query; a library exception is returned as an error `QueryResult` whose status
carries the exception message — no HTTP status code or response body, since
no HTTP exchange takes place. -/
theorem c4_no_http (env : GraphEnv) (question : String)
    (mode commune : Option String) (default_mode default_commune : String)
    (lat : ℚ) (msg : String) :
    ((GraphRAGClient.query env question mode commune default_mode
        default_commune lat).2.countP GraphAction.isHttpPost = 0) ∧
    ((GraphRAGClient.query env question mode commune default_mode
        default_commune lat).2.countP GraphAction.isLibQuery ≤ 1) ∧
    (env.importOk = true →
      env.pathExists (GraphRAGClient.query.pyOrDefault commune default_commune) =
        true →
      env.ragOutcome = RagOutcome.exn msg →
      (GraphRAGClient.query env question mode commune default_mode
          default_commune lat).1.status = "error: " ++ msg) := by
  have hpath : env.pathExists
        (GraphRAGClient.query.pyOrDefault commune default_commune) = true →
      GraphRAGClient.get_commune_path env
        (GraphRAGClient.query.pyOrDefault commune default_commune) =
        some (GraphRAGClient.query.pyOrDefault commune default_commune) := by
    intro h
    unfold GraphRAGClient.get_commune_path
    simp [h]
  refine ⟨?_, ?_, ?_⟩
  · simp only [GraphRAGClient.query]
    repeat' split
    all_goals simp [List.countP_cons, List.countP_nil, GraphAction.isHttpPost]
  · simp only [GraphRAGClient.query]
    repeat' split
    all_goals simp [List.countP_cons, List.countP_nil, GraphAction.isLibQuery]
  · intro h1 h2 h3
    unfold GraphRAGClient.query
    simp [h1, hpath h2, h3, QueryResult.error]

/-- C4 witness: the amended theorem at a concrete environment where the
library raises: the resulting status carries the exception message only. -/
theorem c4_witness :
    (GraphRAGClient.query graphExnEnv ("q2") none none ("global") ("Rochefort")
        3).1.status = "error: " ++ "boom" :=
  (c4_no_http graphExnEnv ("q2") none none ("global") ("Rochefort") 3
    ("boom")).2.2 rfl rfl rfl

/-- C7: `LLMPrecisionJudge.score` distinguishes its two failure modes: with a
missing (unset or empty) credential it returns a zero score with an
explanatory reason and raises nothing, for every judge call outcome; with a
credential present, a response the parser rejects raises an `LLMJudgeError`
that propagates to the caller. -/
theorem c7_judge_error_modes (api_key : Option String) (content m raw : String) :
    ((api_key.map (fun s => s == "")).getD true = true →
      ∀ call : JudgeCallOutcome,
        LLMPrecisionJudge.score api_key call =
          JudgeScoreOutcome.result
            { name := "llm_precision", value := 0
              reason := "LLM judge not configured (missing OPENAI_API_KEY)" }) ∧
    ((api_key.map (fun s => s == "")).getD true = false →
      LLMPrecisionJudge.parse_response content = ParseOutcome.judgeError m raw →
      LLMPrecisionJudge.score api_key (JudgeCallOutcome.content content) =
        JudgeScoreOutcome.raiseJudgeError m raw) := by
  constructor
  · intro h call
    unfold LLMPrecisionJudge.score
    rw [if_pos h]
  · intro h hp
    unfold LLMPrecisionJudge.score
    rw [if_neg (by simp [h])]
    simp [hp]

/-- C7 witness: with no credential the score is zero with the explanatory
reason; with a credential and an unparsable response the judge error is
raised — the theorem applied at concrete inputs. -/
theorem c7_witness :
    LLMPrecisionJudge.score none (JudgeCallOutcome.content ("ignored")) =
      JudgeScoreOutcome.result
        { name := "llm_precision", value := 0
          reason := "LLM judge not configured (missing OPENAI_API_KEY)" } ∧
    LLMPrecisionJudge.score (some ("sk-key")) (JudgeCallOutcome.content ("not json")) =
      JudgeScoreOutcome.raiseJudgeError ("Failed to parse JSON: Expecting value")
        ("not json") := by
  constructor
  · exact (c7_judge_error_modes none ("ignored") ("") ("")).1 rfl
      (JudgeCallOutcome.content ("ignored"))
  · exact (c7_judge_error_modes (some ("sk-key")) ("not json")
      ("Failed to parse JSON: Expecting value") ("not json")).2 rfl rfl

/-- C8: every successfully parsed judge response has its score clamped into
the interval `[0, 1]`; in particular the response with score `1.5` parses to
the clamped score `1` with its reasoning intact. -/
theorem c8_parse_clamps :
    (∀ (content : String) (s : ℚ) (r : String),
      LLMPrecisionJudge.parse_response content = ParseOutcome.ok s r →
      0 ≤ s ∧ s ≤ 1) ∧
    LLMPrecisionJudge.parse_response
        ("\x7b\"score\": 1.5, \"reasoning\": \"x\"\x7d") =
      ParseOutcome.ok 1 ("x") := by
  constructor
  · intro content s r h
    simp only [LLMPrecisionJudge.parse_response] at h
    split at h
    · exact absurd h (by simp)
    · split at h
      · exact absurd h (by simp)
      · exact absurd h (by simp)
      · simp only [ParseOutcome.ok.injEq] at h
        obtain ⟨hs, hr⟩ := h
        constructor <;> rw [← hs]
        · split
          · next hcond => exact hcond.1
          · next => exact le_max_left 0 _
        · split
          · next hcond => exact hcond.2
          · next => exact max_le (by norm_num) (min_le_left _ _)
    · exact absurd h (by simp)
  · have hstep : LLMPrecisionJudge.parse_response
        ("\x7b\"score\": 1.5, \"reasoning\": \"x\"\x7d") =
        ParseOutcome.ok
          (if 0 ≤ ((1 : ℕ) : ℚ) + ((5 : ℕ) : ℚ) / (10 : ℚ) ^ (1 : ℕ) ∧
              ((1 : ℕ) : ℚ) + ((5 : ℕ) : ℚ) / (10 : ℚ) ^ (1 : ℕ) ≤ 1 then
            ((1 : ℕ) : ℚ) + ((5 : ℕ) : ℚ) / (10 : ℚ) ^ (1 : ℕ)
          else max 0 (min 1 (((1 : ℕ) : ℚ) + ((5 : ℕ) : ℚ) / (10 : ℚ) ^ (1 : ℕ))))
          ("x") := rfl
    have hX : ((1 : ℕ) : ℚ) + ((5 : ℕ) : ℚ) / (10 : ℚ) ^ (1 : ℕ) = 3 / 2 := by
      push_cast
      norm_num
    rw [hstep, hX]
    rw [if_neg (by norm_num : ¬ ((0 : ℚ) ≤ 3 / 2 ∧ (3 : ℚ) / 2 ≤ 1))]
    norm_num [max_def, min_def]

/-- C8 witness: the clamping bound applied at the concrete out-of-range
response, with the parse hypothesis discharged by the concrete conjunct. -/
theorem c8_witness : (0 : ℚ) ≤ 1 ∧ (1 : ℚ) ≤ 1 :=
  c8_parse_clamps.1 ("\x7b\"score\": 1.5, \"reasoning\": \"x\"\x7d") 1 ("x")
    c8_parse_clamps.2

/-- C9: whenever any of the required settings `DUST_API_KEY`,
`DUST_WORKSPACE_ID`, `OPIK_API_KEY` is missing (unset or empty),
`ExperimentConfig.from_env` raises a single `ValueError` before anything else
runs, whose message lists exactly the missing required settings, all at once
— and every absent required setting is in that list. -/
theorem c9_from_env_missing (env : EnvTable)
    (h : missingRequiredVars env ≠ []) :
    ExperimentConfig.from_env env =
      FromEnvOutcome.valueError
        ("Missing required environment variables: " ++
          String.intercalate (", ") (missingRequiredVars env)) ∧
    ∀ k ∈ requiredEnvVars, envFalsy env k = true → k ∈ missingRequiredVars env := by
  constructor
  · have hmiss : (if envFalsy env ("DUST_API_KEY") then ["DUST_API_KEY"] else []) ++
        (if envFalsy env ("DUST_WORKSPACE_ID") then ["DUST_WORKSPACE_ID"] else []) ++
        (if envFalsy env ("OPIK_API_KEY") then ["OPIK_API_KEY"] else []) =
        missingRequiredVars env := by
      unfold missingRequiredVars requiredEnvVars
      cases h1 : envFalsy env ("DUST_API_KEY") <;>
        cases h2 : envFalsy env ("DUST_WORKSPACE_ID") <;>
          cases h3 : envFalsy env ("OPIK_API_KEY") <;>
            simp [List.filter, h1, h2, h3]
    unfold ExperimentConfig.from_env
    simp only [hmiss]
    rw [if_pos h]
  · intro k hk hfalsy
    unfold missingRequiredVars
    exact List.mem_filter.mpr ⟨hk, hfalsy⟩

/-- C9 witness: with an empty environment the raised message names all three
required variables at once — the theorem applied at a concrete environment. -/
theorem c9_witness :
    ExperimentConfig.from_env (fun _ => none) =
      FromEnvOutcome.valueError
        ("Missing required environment variables: DUST_API_KEY, DUST_WORKSPACE_ID, OPIK_API_KEY") := by
  have h := c9_from_env_missing (fun _ => none) (by decide)
  rw [h.1]
  decide
